import Mathlib

/-!
Verification of the Soroban timelock (claimable balance) contract, `src/lib.rs`.

The contract storage is `DataKey::Init` (a presence flag) and `DataKey::Balance`
(an optional `ClaimableBalance`).  Addresses are opaque identities, modelled as
naturals.  The host collaborators (authorization provider, token contract) are
modelled as boolean oracles: `auth_ok` records whether `require_auth` succeeds
for the calling identity, `transfer_ok` whether the token transfer succeeds.
A Soroban panic aborts the call and the host rolls back every write, so a
failing call is an `Except.error` carrying the failure kind and leaves the
pre-call state in force.
-/

namespace Timelock

/-- Opaque contract/account identity (`soroban_sdk::Address`). -/
abbrev Address := Nat

/-- `TimeBoundKind` from the source: claim allowed before / after a timestamp. -/
inductive TimeBoundKind where
  | Before
  | After
deriving DecidableEq

/-- `TimeBound` from the source: a kind plus a u64 UNIX timestamp. -/
structure TimeBound where
  kind : TimeBoundKind
  timestamp : Nat
deriving DecidableEq

/-- `ClaimableBalance` from the source: token address, i128 amount,
allowed claimants, and the time bound. -/
structure ClaimableBalance where
  token : Address
  amount : Int
  claimants : List Address
  time_bound : TimeBound
deriving DecidableEq

/-- The failure kinds of the error taxonomy.  In the source each one is a
distinct panic message; `deposit` raises the first four, `claim` the last
four (`AuthorizationFailure` and `TransferFailure` are shared). -/
inductive Error where
  | TooManyClaimants
  | AlreadyInitialized
  | AuthorizationFailure
  | TransferFailure
  | NoActiveEscrow
  | TimeConditionUnmet
  | ClaimantNotAllowed
deriving DecidableEq

/-- The contract instance storage: presence of `DataKey::Init` and the
content of `DataKey::Balance`. -/
structure State where
  init : Bool
  balance : Option ClaimableBalance
deriving DecidableEq

/-- A token transfer instructed by the contract (arguments of
`token::Client::transfer`). -/
structure TransferEv where
  token : Address
  src : Address
  dst : Address
  amount : Int
deriving DecidableEq

/-- Result of an entry-point call: on success the new storage state and the
transfers performed, on failure the failure kind (all writes rolled back). -/
abbrev CallResult := Except Error (State × List TransferEv)

instance {ε α : Type} [DecidableEq ε] [DecidableEq α] : DecidableEq (Except ε α) :=
  fun a b =>
    match a, b with
    | .ok x, .ok y =>
      if h : x = y then .isTrue (by rw [h]) else .isFalse (by intro hc; cases hc; exact h rfl)
    | .error x, .error y =>
      if h : x = y then .isTrue (by rw [h]) else .isFalse (by intro hc; cases hc; exact h rfl)
    | .ok _, .error _ => .isFalse (by intro hc; cases hc)
    | .error _, .ok _ => .isFalse (by intro hc; cases hc)

/-- Storage state at contract creation: no init flag, no balance record. -/
def initialState : State := { init := false, balance := none }

/-- `check_time_bound` from the source: does the current ledger timestamp
satisfy the time bound?  Both comparisons are inclusive. -/
def check_time_bound (ledger_timestamp : Nat) (time_bound : TimeBound) : Bool :=
  match time_bound.kind with
  | .Before => ledger_timestamp ≤ time_bound.timestamp
  | .After => ledger_timestamp ≥ time_bound.timestamp

/-- `is_initialized` from the source: `storage.has(DataKey::Init)`. -/
def is_initialized (s : State) : Bool := s.init

/-- `deposit` from the source.  `contract_address` is
`env.current_contract_address()`; `auth_ok` is the outcome of
`from.require_auth()`; `transfer_ok` the outcome of the token transfer.
Checks in source order: claimant count, init flag, authorization, transfer;
then stores the `ClaimableBalance` and sets the init flag. -/
def deposit (contract_address : Address) (s : State)
    (from_addr : Address) (token : Address) (amount : Int)
    (claimants : List Address) (time_bound : TimeBound)
    (auth_ok : Bool) (transfer_ok : Bool) : CallResult :=
  if claimants.length > 10 then
    .error .TooManyClaimants
  else if is_initialized s then
    .error .AlreadyInitialized
  else if !auth_ok then
    .error .AuthorizationFailure
  else if !transfer_ok then
    .error .TransferFailure
  else
    .ok ({ init := true,
           balance := some { token := token, amount := amount,
                             claimants := claimants, time_bound := time_bound } },
         [{ token := token, src := from_addr, dst := contract_address,
            amount := amount }])

/-- `claim` from the source.  `auth_ok` is the outcome of
`claimant.require_auth()`; `ledger_timestamp` is `env.ledger().timestamp()`;
`transfer_ok` the outcome of the token transfer to the claimant.  Checks in
source order: authorization, record existence, time bound, claimant
membership, transfer; then removes `DataKey::Balance`. -/
def claim (contract_address : Address) (s : State) (claimant : Address)
    (ledger_timestamp : Nat) (auth_ok : Bool) (transfer_ok : Bool) : CallResult :=
  if !auth_ok then
    .error .AuthorizationFailure
  else
    match s.balance with
    | none => .error .NoActiveEscrow
    | some claimable_balance =>
      if !check_time_bound ledger_timestamp claimable_balance.time_bound then
        .error .TimeConditionUnmet
      else if !claimable_balance.claimants.contains claimant then
        .error .ClaimantNotAllowed
      else if !transfer_ok then
        .error .TransferFailure
      else
        .ok ({ s with balance := none },
             [{ token := claimable_balance.token, src := contract_address,
                dst := claimant, amount := claimable_balance.amount }])

/-- Transfers actually committed by a call: none when the call aborted
(the host rolls back the sub-invocations of an aborted call). -/
def transfersOf (r : CallResult) : List TransferEv :=
  match r with
  | .ok (_, evs) => evs
  | .error _ => []

/-- Storage state in force after a call against pre-state `s`: the new state
on success, `s` itself on failure (abort-and-roll-back). -/
def stateOf (r : CallResult) (s : State) : State :=
  match r with
  | .ok (s', _) => s'
  | .error _ => s

/-- Did the call succeed? -/
def isOk (r : CallResult) : Bool :=
  match r with
  | .ok _ => true
  | .error _ => false

/-- States reachable from `s₀` by successful `deposit` / `claim` calls
(failed calls leave the state unchanged, so they add nothing). -/
inductive ReachableFrom : State → State → Prop where
  | refl (s : State) : ReachableFrom s s
  | deposit_step {s₀ s s' : State} {ca fa tk : Address} {amt : Int}
      {cls : List Address} {tb : TimeBound} {a t : Bool} {evs : List TransferEv} :
      ReachableFrom s₀ s →
      deposit ca s fa tk amt cls tb a t = .ok (s', evs) →
      ReachableFrom s₀ s'
  | claim_step {s₀ s s' : State} {ca c : Address} {now : Nat} {a t : Bool}
      {evs : List TransferEv} :
      ReachableFrom s₀ s →
      claim ca s c now a t = .ok (s', evs) →
      ReachableFrom s₀ s'

/-- States reachable over the contract instance's whole lifetime. -/
def Reachable (s : State) : Prop := ReachableFrom initialState s

/-! ## Characterization lemmas -/

/-- `deposit` succeeds exactly when all four checks pass, and then the new
state stores the given record with the init flag set, and the single
transfer moves `amount` of `token` from the depositor to the contract. -/
theorem deposit_eq_ok_iff {ca : Address} {s : State} {fa tk : Address} {amt : Int}
    {cls : List Address} {tb : TimeBound} {a t : Bool} {s' : State} {evs : List TransferEv} :
    deposit ca s fa tk amt cls tb a t = .ok (s', evs) ↔
      (cls.length ≤ 10 ∧ s.init = false ∧ a = true ∧ t = true ∧
       s' = { init := true, balance := some ⟨tk, amt, cls, tb⟩ } ∧
       evs = [⟨tk, fa, ca, amt⟩]) := by
  unfold deposit is_initialized
  by_cases h1 : cls.length > 10
  · simp [h1]
  · rw [if_neg h1]
    by_cases h2 : s.init <;> simp [h2] <;>
    by_cases h3 : a <;> simp [h3] <;>
    by_cases h4 : t <;> simp [h4] <;>
    exact Iff.intro (fun h => ⟨Nat.le_of_not_lt h1, h.1.symm, h.2.symm⟩)
      (fun h => ⟨h.2.1.symm, h.2.2.symm⟩)

/-- `claim` succeeds exactly when all five checks pass, and then the record
is removed (the init flag untouched) and the single transfer moves the
stored amount of the stored token from the contract to the claimant. -/
theorem claim_eq_ok_iff {ca : Address} {s : State} {c : Address} {now : Nat}
    {a t : Bool} {s' : State} {evs : List TransferEv} :
    claim ca s c now a t = .ok (s', evs) ↔
      (a = true ∧ ∃ cb, s.balance = some cb ∧
       check_time_bound now cb.time_bound = true ∧
       c ∈ cb.claimants ∧ t = true ∧
       s' = { s with balance := none } ∧
       evs = [⟨cb.token, ca, c, cb.amount⟩]) := by
  unfold claim
  by_cases h1 : a <;> simp [h1]
  cases hb : s.balance with
  | none => simp
  | some cb =>
    simp
    by_cases h2 : check_time_bound now cb.time_bound <;> simp [h2] <;>
    by_cases h3 : c ∈ cb.claimants <;> simp [h3] <;>
    by_cases h4 : t <;> simp [h4] <;>
    exact Iff.intro (fun h => ⟨h.1.symm, h.2.symm⟩) (fun h => ⟨h.1.symm, h.2.symm⟩)

theorem deposit_too_many {ca : Address} {s : State} {fa tk : Address} {amt : Int}
    {cls : List Address} {tb : TimeBound} {a t : Bool} (h : cls.length > 10) :
    deposit ca s fa tk amt cls tb a t = .error .TooManyClaimants := by
  simp [deposit, h]

theorem deposit_already_init {ca : Address} {s : State} {fa tk : Address} {amt : Int}
    {cls : List Address} {tb : TimeBound} {a t : Bool}
    (h1 : cls.length ≤ 10) (h2 : s.init = true) :
    deposit ca s fa tk amt cls tb a t = .error .AlreadyInitialized := by
  simp [deposit, is_initialized, h2, Nat.not_lt.mpr h1]

theorem deposit_auth_fail {ca : Address} {s : State} {fa tk : Address} {amt : Int}
    {cls : List Address} {tb : TimeBound} {t : Bool}
    (h1 : cls.length ≤ 10) (h2 : s.init = false) :
    deposit ca s fa tk amt cls tb false t = .error .AuthorizationFailure := by
  simp [deposit, is_initialized, h2, Nat.not_lt.mpr h1]

theorem deposit_transfer_fail {ca : Address} {s : State} {fa tk : Address} {amt : Int}
    {cls : List Address} {tb : TimeBound}
    (h1 : cls.length ≤ 10) (h2 : s.init = false) :
    deposit ca s fa tk amt cls tb true false = .error .TransferFailure := by
  simp [deposit, is_initialized, h2, Nat.not_lt.mpr h1]

theorem claim_auth_fail {ca : Address} {s : State} {c : Address} {now : Nat} {t : Bool} :
    claim ca s c now false t = .error .AuthorizationFailure := by
  simp [claim]

theorem claim_no_escrow {ca : Address} {s : State} {c : Address} {now : Nat} {t : Bool}
    (hb : s.balance = none) :
    claim ca s c now true t = .error .NoActiveEscrow := by
  simp [claim, hb]

theorem claim_time_unmet {ca : Address} {s : State} {c : Address} {now : Nat} {t : Bool}
    {cb : ClaimableBalance} (hb : s.balance = some cb)
    (ht : check_time_bound now cb.time_bound = false) :
    claim ca s c now true t = .error .TimeConditionUnmet := by
  simp [claim, hb, ht]

theorem claim_not_allowed {ca : Address} {s : State} {c : Address} {now : Nat} {t : Bool}
    {cb : ClaimableBalance} (hb : s.balance = some cb)
    (ht : check_time_bound now cb.time_bound = true) (hm : c ∉ cb.claimants) :
    claim ca s c now true t = .error .ClaimantNotAllowed := by
  simp [claim, hb, ht, hm]

theorem claim_transfer_fail {ca : Address} {s : State} {c : Address} {now : Nat}
    {cb : ClaimableBalance} (hb : s.balance = some cb)
    (ht : check_time_bound now cb.time_bound = true) (hm : c ∈ cb.claimants) :
    claim ca s c now true false = .error .TransferFailure := by
  simp [claim, hb, ht, hm]

theorem claim_success {ca : Address} {s : State} {c : Address} {now : Nat}
    {cb : ClaimableBalance} (hb : s.balance = some cb)
    (ht : check_time_bound now cb.time_bound = true) (hm : c ∈ cb.claimants) :
    claim ca s c now true true =
      .ok ({ s with balance := none }, [⟨cb.token, ca, c, cb.amount⟩]) := by
  simp [claim, hb, ht, hm]

/-- Lifecycle invariant: in every reachable state, a stored balance record
implies the init flag is set (the record is only ever written together with
the flag). -/
theorem reachable_balance_init {s : State} (h : Reachable s) :
    s.balance.isSome = true → s.init = true := by
  induction h with
  | refl => intro hb; simp [initialState] at hb
  | deposit_step hr hd ih =>
      intro hb
      rcases deposit_eq_ok_iff.mp hd with ⟨-, -, -, -, hs', -⟩
      rw [hs']
  | claim_step hr hc ih =>
      intro hb
      rcases claim_eq_ok_iff.mp hc with ⟨-, cb, hbal, -, -, -, hs', -⟩
      rw [hs'] at hb
      simp at hb

/-- A consumed instance (init flag set, no record) has no successor state:
every later reachable state is the consumed state itself. -/
theorem reachableFrom_consumed {s s' : State} (hinit : s.init = true)
    (hbal : s.balance = none) (h : ReachableFrom s s') : s' = s := by
  induction h with
  | refl => rfl
  | deposit_step hr hd ih =>
      rcases deposit_eq_ok_iff.mp hd with ⟨-, hi, -⟩
      rw [ih, hinit] at hi
      cases hi
  | claim_step hr hc ih =>
      rcases claim_eq_ok_iff.mp hc with ⟨-, cb, hb, -⟩
      rw [ih, hbal] at hb
      cases hb

/-! ## Claims -/

/-- C1 (counterexample): from a freshly consumed escrow (successful claim just
deleted the record), a deposit whose claimants list has 11 entries fails with
TooManyClaimants, not AlreadyInitialized — the claimant-count check precedes
the initialization check. -/
theorem C1_deposit_error_after_claim_cex :
    claim 0 { init := true, balance := some ⟨2, 800, [3], ⟨.Before, 12346⟩⟩ } 3 12345 true true
      = .ok ({ init := true, balance := none }, [⟨2, 0, 3, 800⟩]) ∧
    deposit 0 { init := true, balance := none } 1 2 800
        [4, 4, 4, 4, 4, 4, 4, 4, 4, 4, 4] ⟨.Before, 12346⟩ true true
      = .error .TooManyClaimants ∧
    (Except.error Error.TooManyClaimants : CallResult) ≠ .error .AlreadyInitialized := by
  decide

/-- C1 (amended): once the escrow record has been deleted by a successful
claim, it can never be recreated: for every reachable state after a successful
claim, any subsequent authorized claim call (by any identity, including the one
that claimed) fails with NoActiveEscrow; any subsequent deposit call fails —
with AlreadyInitialized when its claimants list has at most 10 entries, with
TooManyClaimants when it has more — and every state reachable from the consumed
state is the consumed state itself, so the contract instance holds exactly one
escrow over its lifetime. -/
theorem C1_exactly_once_escrow (s s' : State) (ca c : Address) (now : Nat) (t : Bool)
    (evs : List TransferEv) (hreach : Reachable s)
    (hclaim : claim ca s c now true t = .ok (s', evs)) :
    (∀ ca' c' now' t', claim ca' s' c' now' true t' = .error .NoActiveEscrow) ∧
    (∀ ca' fa tk amt cls tb a' t',
      deposit ca' s' fa tk amt cls tb a' t' =
        .error (if cls.length > 10 then .TooManyClaimants else .AlreadyInitialized)) ∧
    (∀ s'', ReachableFrom s' s'' → s'' = s') := by
  rcases claim_eq_ok_iff.mp hclaim with ⟨-, cb, hbal, -, -, -, hs', -⟩
  have hinit : s.init = true := reachable_balance_init hreach (by simp [hbal])
  have hinit' : s'.init = true := by rw [hs']; exact hinit
  have hbal' : s'.balance = none := by rw [hs']
  refine ⟨fun ca' c' now' t' => claim_no_escrow hbal',
          fun ca' fa tk amt cls tb a' t' => ?_,
          fun s'' h => reachableFrom_consumed hinit' hbal' h⟩
  by_cases h : cls.length > 10
  · rw [if_pos h]; exact deposit_too_many h
  · rw [if_neg h]; exact deposit_already_init (Nat.le_of_not_lt h) hinit'

/-- C1 witness: the amended theorem applied to a concrete reachable run
(deposit, then successful claim), instantiating each consequence. -/
theorem C1_exactly_once_escrow_witness :
    claim 5 { init := true, balance := none } 7 99 true false = .error .NoActiveEscrow ∧
    deposit 6 { init := true, balance := none } 1 2 800 [4] ⟨.After, 3⟩ false true
      = .error (if ([4] : List Address).length > 10
                then Error.TooManyClaimants else Error.AlreadyInitialized) ∧
    ({ init := true, balance := none } : State) = { init := true, balance := none } := by
  have hdep : deposit 0 initialState 1 2 800 [3] ⟨.Before, 12346⟩ true true
      = .ok ({ init := true, balance := some ⟨2, 800, [3], ⟨.Before, 12346⟩⟩ },
             [⟨2, 1, 0, 800⟩]) := by decide
  have hreach : Reachable { init := true, balance := some ⟨2, 800, [3], ⟨.Before, 12346⟩⟩ } :=
    ReachableFrom.deposit_step (ReachableFrom.refl _) hdep
  have hclaim : claim 0 { init := true, balance := some ⟨2, 800, [3], ⟨.Before, 12346⟩⟩ }
      3 12345 true true
      = .ok ({ init := true, balance := none }, [⟨2, 0, 3, 800⟩]) := by decide
  have h := C1_exactly_once_escrow _ _ _ _ _ _ _ hreach hclaim
  exact ⟨h.1 5 7 99 false, h.2.1 6 1 2 800 [4] ⟨.After, 3⟩ false true,
         h.2.2 _ (ReachableFrom.refl _)⟩

/-- C2: for a stored record and current ledger time `now`, a BEFORE bound with
timestamp T holds iff `now ≤ T`, an AFTER bound holds iff `now ≥ T`, the
boundary `now = T` satisfies the bound for both kinds, and an authorized claim
fails with TimeConditionUnmet exactly when the predicate does not hold. -/
theorem C2_time_bound_correctness (ca c : Address) (s : State) (cb : ClaimableBalance)
    (now : Nat) (t : Bool) (hbal : s.balance = some cb) :
    (cb.time_bound.kind = .Before →
      (check_time_bound now cb.time_bound = true ↔ now ≤ cb.time_bound.timestamp)) ∧
    (cb.time_bound.kind = .After →
      (check_time_bound now cb.time_bound = true ↔ cb.time_bound.timestamp ≤ now)) ∧
    check_time_bound cb.time_bound.timestamp cb.time_bound = true ∧
    (claim ca s c now true t = .error .TimeConditionUnmet ↔
      check_time_bound now cb.time_bound = false) := by
  refine ⟨?_, ?_, ?_, ?_, ?_⟩
  · intro hk; unfold check_time_bound; rw [hk]; simp
  · intro hk; unfold check_time_bound; rw [hk]; simp [ge_iff_le]
  · unfold check_time_bound; cases cb.time_bound.kind <;> simp
  · intro h
    cases hcb : check_time_bound now cb.time_bound with
    | false => rfl
    | true =>
      exfalso
      by_cases hm : c ∈ cb.claimants
      · cases t with
        | false => rw [claim_transfer_fail hbal hcb hm] at h; simp at h
        | true => rw [claim_success hbal hcb hm] at h; simp at h
      · rw [claim_not_allowed hbal hcb hm] at h; simp at h
  · intro ht; exact claim_time_unmet hbal ht

/-- C2 witness: the theorem at a concrete BEFORE-bound record, claiming one
second before the bound. -/
theorem C2_time_bound_correctness_witness :
    ((TimeBoundKind.Before = TimeBoundKind.Before →
      (check_time_bound 12345 ⟨.Before, 12346⟩ = true ↔ 12345 ≤ 12346)) ∧
     (TimeBoundKind.Before = TimeBoundKind.After →
      (check_time_bound 12345 ⟨.Before, 12346⟩ = true ↔ 12346 ≤ 12345)) ∧
     check_time_bound 12346 ⟨.Before, 12346⟩ = true ∧
     (claim 0 { init := true, balance := some ⟨2, 800, [3], ⟨.Before, 12346⟩⟩ } 3 12345 true true
        = .error .TimeConditionUnmet ↔
      check_time_bound 12345 ⟨.Before, 12346⟩ = false)) :=
  C2_time_bound_correctness 0 3 _ ⟨2, 800, [3], ⟨.Before, 12346⟩⟩ 12345 true rfl

/-- C3 (counterexample): after a successful first deposit, a second deposit
with an 11-entry claimants list fails with TooManyClaimants, not
AlreadyInitialized — so the second deposit's error is not AlreadyInitialized
regardless of arguments. -/
theorem C3_second_deposit_toomany_cex :
    deposit 0 initialState 1 2 800 [3] ⟨.Before, 12346⟩ true true
      = .ok ({ init := true, balance := some ⟨2, 800, [3], ⟨.Before, 12346⟩⟩ },
             [⟨2, 1, 0, 800⟩]) ∧
    deposit 0 { init := true, balance := some ⟨2, 800, [3], ⟨.Before, 12346⟩⟩ } 1 2 800
        [3, 3, 3, 3, 3, 3, 3, 3, 3, 3, 3] ⟨.Before, 12346⟩ true true
      = .error .TooManyClaimants ∧
    (Except.error Error.TooManyClaimants : CallResult) ≠ .error .AlreadyInitialized := by
  decide

/-- C3 (amended): once the initialization flag is set, every subsequent
deposit call fails: with TooManyClaimants when its claimants list exceeds 10
entries (that check runs first), and with AlreadyInitialized otherwise,
regardless of all the other arguments. -/
theorem C3_second_deposit_fails (ca fa tk : Address) (amt : Int) (cls : List Address)
    (tb : TimeBound) (a t : Bool) (s : State) (hinit : s.init = true) :
    deposit ca s fa tk amt cls tb a t =
      .error (if cls.length > 10 then .TooManyClaimants else .AlreadyInitialized) := by
  by_cases h : cls.length > 10
  · rw [if_pos h]; exact deposit_too_many h
  · rw [if_neg h]; exact deposit_already_init (Nat.le_of_not_lt h) hinit

/-- C3 witness: the amended theorem at a concrete initialized state and a
two-claimant second deposit. -/
theorem C3_second_deposit_fails_witness :
    deposit 9 { init := true, balance := none } 1 2 (-7) [4, 4] ⟨.After, 0⟩ false false =
      .error (if ([4, 4] : List Address).length > 10
              then Error.TooManyClaimants else Error.AlreadyInitialized) :=
  C3_second_deposit_fails 9 1 2 (-7) [4, 4] ⟨.After, 0⟩ false false _ rfl

/-- C4: with a live record and the time predicate satisfied, an authorized
claim by an identity not in the stored claimants sequence fails with
ClaimantNotAllowed, moves no funds and leaves the state unchanged; the
membership test is exact identity membership (position irrelevant). -/
theorem C4_claimant_restriction (ca c : Address) (s : State) (cb : ClaimableBalance)
    (now : Nat) (t : Bool) (hbal : s.balance = some cb)
    (ht : check_time_bound now cb.time_bound = true)
    (hm : c ∉ cb.claimants) :
    claim ca s c now true t = .error .ClaimantNotAllowed ∧
    transfersOf (claim ca s c now true t) = [] ∧
    stateOf (claim ca s c now true t) s = s ∧
    (cb.claimants.contains c = true ↔ c ∈ cb.claimants) := by
  have h1 := @claim_not_allowed ca s c now t cb hbal ht hm
  exact ⟨h1, by simp [transfersOf, h1], by simp [stateOf, h1], by simp⟩

/-- C4 witness: the theorem at a concrete record with claimants `[3]` and the
non-claimant identity `7`, inside the valid time window. -/
theorem C4_claimant_restriction_witness :
    claim 0 { init := true, balance := some ⟨2, 800, [3], ⟨.Before, 12346⟩⟩ } 7 12345 true true
      = .error .ClaimantNotAllowed ∧
    transfersOf (claim 0 { init := true, balance := some ⟨2, 800, [3], ⟨.Before, 12346⟩⟩ }
      7 12345 true true) = [] ∧
    stateOf (claim 0 { init := true, balance := some ⟨2, 800, [3], ⟨.Before, 12346⟩⟩ }
        7 12345 true true) { init := true, balance := some ⟨2, 800, [3], ⟨.Before, 12346⟩⟩ }
      = { init := true, balance := some ⟨2, 800, [3], ⟨.Before, 12346⟩⟩ } ∧
    (([3] : List Address).contains 7 = true ↔ 7 ∈ ([3] : List Address)) :=
  C4_claimant_restriction 0 7 _ ⟨2, 800, [3], ⟨.Before, 12346⟩⟩ 12345 true rfl
    (by decide) (by decide)

/-- C5: deposit validates in source order — oversized claimants list fails
with TooManyClaimants (before anything else), then a set initialization flag
fails with AlreadyInitialized, then missing authorization fails with
AuthorizationFailure (before the transfer, whose outcome is irrelevant then) —
and every failing deposit commits no transfer and leaves the state unchanged. -/
theorem C5_deposit_validation_order (ca fa tk : Address) (amt : Int) (cls : List Address)
    (tb : TimeBound) (s : State) (a t : Bool) :
    (cls.length > 10 → deposit ca s fa tk amt cls tb a t = .error .TooManyClaimants) ∧
    (cls.length ≤ 10 → s.init = true →
      deposit ca s fa tk amt cls tb a t = .error .AlreadyInitialized) ∧
    (cls.length ≤ 10 → s.init = false →
      deposit ca s fa tk amt cls tb false t = .error .AuthorizationFailure) ∧
    (∀ e, deposit ca s fa tk amt cls tb a t = .error e →
      transfersOf (deposit ca s fa tk amt cls tb a t) = [] ∧
      stateOf (deposit ca s fa tk amt cls tb a t) s = s) :=
  ⟨fun h => deposit_too_many h,
   fun h1 h2 => deposit_already_init h1 h2,
   fun h1 h2 => deposit_auth_fail h1 h2,
   fun e he => ⟨by simp [transfersOf, he], by simp [stateOf, he]⟩⟩

/-- C5 witness: each conjunct of the ordering theorem instantiated at a
concrete failing deposit. -/
theorem C5_deposit_validation_order_witness :
    deposit 0 initialState 1 2 800 [4, 4, 4, 4, 4, 4, 4, 4, 4, 4, 4] ⟨.Before, 5⟩ true true
      = .error .TooManyClaimants ∧
    deposit 0 { init := true, balance := none } 1 2 800 [4] ⟨.Before, 5⟩ true true
      = .error .AlreadyInitialized ∧
    deposit 0 initialState 1 2 800 [4] ⟨.Before, 5⟩ false false
      = .error .AuthorizationFailure ∧
    (transfersOf (deposit 0 initialState 1 2 800 [4] ⟨.Before, 5⟩ false false) = [] ∧
     stateOf (deposit 0 initialState 1 2 800 [4] ⟨.Before, 5⟩ false false) initialState
       = initialState) :=
  ⟨(C5_deposit_validation_order 0 1 2 800 [4, 4, 4, 4, 4, 4, 4, 4, 4, 4, 4] ⟨.Before, 5⟩
      initialState true true).1 (by decide),
   (C5_deposit_validation_order 0 1 2 800 [4] ⟨.Before, 5⟩
      { init := true, balance := none } true true).2.1 (by decide) rfl,
   (C5_deposit_validation_order 0 1 2 800 [4] ⟨.Before, 5⟩
      initialState false false).2.2.1 (by decide) rfl,
   (C5_deposit_validation_order 0 1 2 800 [4] ⟨.Before, 5⟩
      initialState false false).2.2.2 .AuthorizationFailure (by decide)⟩

/-- C6: with every earlier check passed, a failing transfer aborts the claim
with TransferFailure and the record (and the rest of the state) is exactly as
before the call; the record is deleted precisely when the transfer succeeds,
in which case the transfer to the claimant is part of the committed result. -/
theorem C6_transfer_before_delete (ca c : Address) (s : State) (cb : ClaimableBalance)
    (now : Nat) (hbal : s.balance = some cb)
    (ht : check_time_bound now cb.time_bound = true) (hm : c ∈ cb.claimants) :
    (claim ca s c now true false = .error .TransferFailure ∧
     stateOf (claim ca s c now true false) s = s ∧
     (stateOf (claim ca s c now true false) s).balance = some cb) ∧
    (claim ca s c now true true =
      .ok ({ s with balance := none }, [⟨cb.token, ca, c, cb.amount⟩])) := by
  have h1 := @claim_transfer_fail ca s c now cb hbal ht hm
  exact ⟨⟨h1, by simp [stateOf, h1], by simp [stateOf, h1, hbal]⟩, claim_success hbal ht hm⟩

/-- C6 witness: the theorem at a concrete eligible claim, with the transfer
failing and succeeding. -/
theorem C6_transfer_before_delete_witness :
    (claim 0 { init := true, balance := some ⟨2, 800, [3], ⟨.Before, 12346⟩⟩ } 3 12345 true false
       = .error .TransferFailure ∧
     stateOf (claim 0 { init := true, balance := some ⟨2, 800, [3], ⟨.Before, 12346⟩⟩ }
         3 12345 true false) { init := true, balance := some ⟨2, 800, [3], ⟨.Before, 12346⟩⟩ }
       = { init := true, balance := some ⟨2, 800, [3], ⟨.Before, 12346⟩⟩ } ∧
     (stateOf (claim 0 { init := true, balance := some ⟨2, 800, [3], ⟨.Before, 12346⟩⟩ }
         3 12345 true false) { init := true, balance := some ⟨2, 800, [3], ⟨.Before, 12346⟩⟩ }
       ).balance = some ⟨2, 800, [3], ⟨.Before, 12346⟩⟩) ∧
    (claim 0 { init := true, balance := some ⟨2, 800, [3], ⟨.Before, 12346⟩⟩ } 3 12345 true true
       = .ok ({ init := true, balance := none }, [⟨2, 0, 3, 800⟩])) :=
  C6_transfer_before_delete 0 3 _ ⟨2, 800, [3], ⟨.Before, 12346⟩⟩ 12345 rfl
    (by decide) (by decide)

/-- C7: an authorized claim against an instance with no stored record — never
deposited, or already consumed — fails with NoActiveEscrow, and NoActiveEscrow
is a failure kind distinct from every other kind in the taxonomy. -/
theorem C7_no_active_escrow (ca c : Address) (s : State) (now : Nat) (t : Bool)
    (hbal : s.balance = none) :
    claim ca s c now true t = .error .NoActiveEscrow ∧
    (Error.NoActiveEscrow ≠ .TooManyClaimants ∧ Error.NoActiveEscrow ≠ .AlreadyInitialized ∧
     Error.NoActiveEscrow ≠ .AuthorizationFailure ∧ Error.NoActiveEscrow ≠ .TransferFailure ∧
     Error.NoActiveEscrow ≠ .TimeConditionUnmet ∧ Error.NoActiveEscrow ≠ .ClaimantNotAllowed) :=
  ⟨claim_no_escrow hbal, by decide⟩

/-- C7 witness: the theorem at a concrete never-deposited instance. -/
theorem C7_no_active_escrow_witness :
    claim 4 { init := false, balance := none } 9 77 true false = .error .NoActiveEscrow ∧
    (Error.NoActiveEscrow ≠ .TooManyClaimants ∧ Error.NoActiveEscrow ≠ .AlreadyInitialized ∧
     Error.NoActiveEscrow ≠ .AuthorizationFailure ∧ Error.NoActiveEscrow ≠ .TransferFailure ∧
     Error.NoActiveEscrow ≠ .TimeConditionUnmet ∧ Error.NoActiveEscrow ≠ .ClaimantNotAllowed) :=
  C7_no_active_escrow 4 9 _ 77 false rfl

/-- C8: deposit validates nothing about the amount: for every amount,
including zero and negatives, the amount is passed unmodified to the transfer
and stored exactly in the record when the call succeeds; a rejection by the
asset collaborator surfaces as TransferFailure. -/
theorem C8_amount_not_validated (ca fa tk : Address) (amt : Int) (cls : List Address)
    (tb : TimeBound) (s : State) (hlen : cls.length ≤ 10) (hinit : s.init = false) :
    deposit ca s fa tk amt cls tb true true =
      .ok ({ init := true, balance := some ⟨tk, amt, cls, tb⟩ }, [⟨tk, fa, ca, amt⟩]) ∧
    deposit ca s fa tk amt cls tb true false = .error .TransferFailure :=
  ⟨deposit_eq_ok_iff.mpr ⟨hlen, hinit, rfl, rfl, rfl, rfl⟩, deposit_transfer_fail hlen hinit⟩

/-- C8 witness: the theorem at the negative amount -5. -/
theorem C8_amount_not_validated_witness :
    deposit 0 initialState 1 2 (-5) [] ⟨.After, 7⟩ true true =
      .ok ({ init := true, balance := some ⟨2, -5, [], ⟨.After, 7⟩⟩ }, [⟨2, 1, 0, -5⟩]) ∧
    deposit 0 initialState 1 2 (-5) [] ⟨.After, 7⟩ true false = .error .TransferFailure :=
  C8_amount_not_validated 0 1 2 (-5) [] ⟨.After, 7⟩ initialState (by decide) rfl

/-- C9: claim never touches the initialization flag — the post-call flag
always equals the pre-call flag — and the only storage change a claim makes is
removing the record on success; every failing claim leaves the state as it
was. -/
theorem C9_claim_frame (ca c : Address) (s : State) (now : Nat) (a t : Bool) :
    (stateOf (claim ca s c now a t) s).init = s.init ∧
    (∀ s' evs, claim ca s c now a t = .ok (s', evs) → s' = { s with balance := none }) ∧
    (∀ e, claim ca s c now a t = .error e → stateOf (claim ca s c now a t) s = s) := by
  refine ⟨?_, ?_, ?_⟩
  · cases hr : claim ca s c now a t with
    | ok p =>
      obtain ⟨s', evs⟩ := p
      rcases claim_eq_ok_iff.mp hr with ⟨-, cb, -, -, -, -, hs', -⟩
      simp [stateOf, hs']
    | error e => simp [stateOf]
  · intro s' evs h
    rcases claim_eq_ok_iff.mp h with ⟨-, cb, -, -, -, -, hs', -⟩
    exact hs'
  · intro e h; simp [stateOf, h]

/-- C9 witness: the frame theorem instantiated at a concrete successful claim
and at a concrete failing (unauthorized) claim. -/
theorem C9_claim_frame_witness :
    (stateOf (claim 0 { init := true, balance := some ⟨2, 800, [3], ⟨.Before, 12346⟩⟩ }
        3 12345 true true) { init := true, balance := some ⟨2, 800, [3], ⟨.Before, 12346⟩⟩ }
      ).init = ({ init := true, balance := some ⟨2, 800, [3], ⟨.Before, 12346⟩⟩ } : State).init ∧
    ({ init := true, balance := none } : State) = { init := true, balance := none } ∧
    stateOf (claim 0 { init := true, balance := some ⟨2, 800, [3], ⟨.Before, 12346⟩⟩ }
        3 12345 false true) { init := true, balance := some ⟨2, 800, [3], ⟨.Before, 12346⟩⟩ }
      = { init := true, balance := some ⟨2, 800, [3], ⟨.Before, 12346⟩⟩ } :=
  ⟨(C9_claim_frame 0 3 { init := true, balance := some ⟨2, 800, [3], ⟨.Before, 12346⟩⟩ }
      12345 true true).1,
   (C9_claim_frame 0 3 { init := true, balance := some ⟨2, 800, [3], ⟨.Before, 12346⟩⟩ }
      12345 true true).2.1 { init := true, balance := none } [⟨2, 0, 3, 800⟩] (by decide),
   (C9_claim_frame 0 3 { init := true, balance := some ⟨2, 800, [3], ⟨.Before, 12346⟩⟩ }
      12345 false true).2.2 .AuthorizationFailure (by decide)⟩

/-- C10: deposit checks neither emptiness of the claimants list nor the time
bound against any clock: a deposit with zero claimants succeeds, and so does
one with a BEFORE bound already in the past; the resulting escrows can never
be claimed — every claim against the empty-claimants record fails, and every
claim against the expired BEFORE record at any later time fails. -/
theorem C10_no_timebound_validation (ca ca' fa tk : Address) (amt : Int) (tb : TimeBound)
    (s : State) (c : Address) (now : Nat) (a t : Bool) (T now' : Nat)
    (hinit : s.init = false) (hpast : T < now') :
    (deposit ca s fa tk amt [] tb true true =
      .ok ({ init := true, balance := some ⟨tk, amt, [], tb⟩ }, [⟨tk, fa, ca, amt⟩])) ∧
    (deposit ca s fa tk amt [c] ⟨.Before, T⟩ true true =
      .ok ({ init := true, balance := some ⟨tk, amt, [c], ⟨.Before, T⟩⟩ },
           [⟨tk, fa, ca, amt⟩])) ∧
    isOk (claim ca' { init := true, balance := some ⟨tk, amt, [], tb⟩ } c now a t) = false ∧
    isOk (claim ca' { init := true, balance := some ⟨tk, amt, [c], ⟨.Before, T⟩⟩ } c now' a t)
      = false := by
  refine ⟨deposit_eq_ok_iff.mpr ⟨by simp, hinit, rfl, rfl, rfl, rfl⟩,
          deposit_eq_ok_iff.mpr ⟨by simp, hinit, rfl, rfl, rfl, rfl⟩, ?_, ?_⟩
  · cases a with
    | false => rw [claim_auth_fail]; rfl
    | true =>
      by_cases h2 : check_time_bound now tb
      · rw [claim_not_allowed rfl h2 (by simp)]; rfl
      · rw [claim_time_unmet rfl (by simp [h2])]; rfl
  · cases a with
    | false => rw [claim_auth_fail]; rfl
    | true =>
      have h2 : check_time_bound now' ⟨.Before, T⟩ = false := by
        unfold check_time_bound; simp; omega
      rw [claim_time_unmet rfl h2]; rfl

/-- C10 witness: the theorem at a concrete fresh instance, a BEFORE bound of
10 already past at time 50 and an attempted claim at time 50. -/
theorem C10_no_timebound_validation_witness :
    (deposit 0 initialState 1 2 800 [] ⟨.Before, 10⟩ true true =
      .ok ({ init := true, balance := some ⟨2, 800, [], ⟨.Before, 10⟩⟩ }, [⟨2, 1, 0, 800⟩])) ∧
    (deposit 0 initialState 1 2 800 [3] ⟨.Before, 10⟩ true true =
      .ok ({ init := true, balance := some ⟨2, 800, [3], ⟨.Before, 10⟩⟩ }, [⟨2, 1, 0, 800⟩])) ∧
    isOk (claim 5 { init := true, balance := some ⟨2, 800, [], ⟨.Before, 10⟩⟩ } 3 50 true true)
      = false ∧
    isOk (claim 5 { init := true, balance := some ⟨2, 800, [3], ⟨.Before, 10⟩⟩ } 3 50 true true)
      = false :=
  C10_no_timebound_validation 0 5 1 2 800 ⟨.Before, 10⟩ initialState 3 50 true true 10 50
    rfl (by decide)

end Timelock
